import Mathlib

/-!
Shallow embedding of the Dig Dug game core (src/game.py) for checking the
natural-language specification against the code.

The repository's `characters.py` and `mapa.py` modules are not present under
src/; the entity and terrain interfaces they provide are modelled from the
spec (each such definition carries a doc comment starting `Modelled from the
spec:`).  Everything else is translated directly from src/game.py.
-/

namespace DigdugGame

/-- Grid coordinate, a pair of integers. -/
abbrev Pos := Int × Int

/-- Modelled from the spec: the movement-direction enumeration provided by the
absent `characters.py` module (four cardinal directions). -/
inductive Direction where
| north
| south
| east
| west
deriving DecidableEq, Repr

/-- Module constant LIVES (src/game.py line 12). -/
def LIVES : Int := 3

/-- Module constant INITIAL_SCORE (src/game.py line 13). -/
def INITIAL_SCORE : Nat := 0

/-- Module constant TIMEOUT (src/game.py line 14). -/
def TIMEOUT : Nat := 3000

/-- Module constant GAME_SPEED (src/game.py line 15). -/
def GAME_SPEED : Nat := 10

/-- Module constant MAP_SIZE (src/game.py line 17). -/
def MAP_SIZE : Nat × Nat := (32, 32)

/-- Module constant MAX_LEN_ROPE (src/game.py line 18). -/
def MAX_LEN_ROPE : Nat := 3

/-- Module constant ROCK_KILL_POINTS (src/game.py line 20). -/
def ROCK_KILL_POINTS : Nat := 1000

/-- The two enemy type tags (Fygar and Pooka from the absent characters
module; only the tag is needed by the core). -/
inductive EnemyType where
| Fygar
| Pooka
deriving DecidableEq, Repr

/-- Modelled from the spec: the depth-tier point value a non-rock kill awards.
The concrete tier table lives in the absent `characters.py`; the spec only
says the value is derived from the kill depth and the terrain's vertical-tile
count, so the embedding stores an abstract representative value per enemy
(field `tierPoints` below) and uses this constant when creating enemies. -/
def TIER_POINTS : Nat := 100

/-- Modelled from the spec: the enemy entity interface of the absent
`characters.py` module: a type tag, an identity, a position, its own spawn
point, an alive flag, an exited flag, a marker recording whether its death was
rock-caused (so that `points` can award the flat rock bonus), and the abstract
depth-tier point value its `points` query yields for non-rock kills. -/
structure Enemy where
  etype : EnemyType
  id : Nat
  pos : Pos
  spawn : Pos
  alive : Bool
  exit : Bool
  killedByRock : Bool
  tierPoints : Nat
deriving DecidableEq, Repr

/-- Modelled from the spec: `kill(causeFlag?)` flags the death on the enemy
itself; a rock-caused kill is marked so that `points` awards the flat bonus. -/
def Enemy.kill (e : Enemy) (rock : Bool) : Enemy :=
  { e with alive := false, killedByRock := rock }

/-- Modelled from the spec: `respawn()` forces the enemy back to its own
spawn point. -/
def Enemy.respawn (e : Enemy) : Enemy :=
  { e with pos := e.spawn }

/-- Modelled from the spec: `points(verTiles)` awards the fixed flat bonus
ROCK_KILL_POINTS for rock-caused kills and a depth-tier value otherwise; the
tier value is abstracted as the stored field `tierPoints` (the concrete tier
table is in the absent characters module), so the `verTiles` argument is kept
for interface fidelity but unused here. -/
def Enemy.points (e : Enemy) (verTiles : Nat) : Nat :=
  if e.killedByRock then ROCK_KILL_POINTS else e.tierPoints

/-- Display name used by the snapshot (`str(e)` in the source). -/
def Enemy.name (e : Enemy) : String :=
  match e.etype with
  | EnemyType.Fygar => "Fygar"
  | EnemyType.Pooka => "Pooka"

/-- Modelled from the spec: the player character of the absent
`characters.py` module: position, remaining lives, facing direction, and the
fixed spawn point it returns to on respawn. -/
structure DigDug where
  pos : Pos
  spawn : Pos
  lives : Int
  direction : Direction
deriving DecidableEq, Repr

/-- Modelled from the spec: the player is created at the terrain spawn with
the configured life count; the initial facing direction is not specified by
the spec and is fixed as east here. -/
def DigDug.init (spawn : Pos) (lives : Int) : DigDug :=
  { pos := spawn, spawn := spawn, lives := lives, direction := Direction.east }

/-- Modelled from the spec: `kill()` decrements the life count by exactly
one. -/
def DigDug.kill (d : DigDug) : DigDug :=
  { d with lives := d.lives - 1 }

/-- Modelled from the spec: `respawn()` moves the player back to the fixed
spawn point. -/
def DigDug.respawn (d : DigDug) : DigDug :=
  { d with pos := d.spawn }

/-- Modelled from the spec: a rock entity: identity and position. -/
structure Rock where
  id : Nat
  pos : Pos
deriving DecidableEq, Repr

/-- Modelled from the spec: the terrain interface of the absent `mapa.py`
module: a level identifier, a size, a vertical-tile count, the player spawn
point, the ordered enemy spawn points, the rock seed positions, the tile grid,
the VITAL_SPACE module constant, and the non-traversing step query
`calc_pos`. -/
structure Map where
  level : Nat
  size : Nat × Nat
  ver_tiles : Nat
  digdug_spawn : Pos
  enemies_spawn : List Pos
  rocks : List Pos
  map : List (List Nat)
  vitalSpace : Nat
  calc_pos : Pos → Direction → Pos

/-- Input symbols consumed by the core: the four movement keys, the two
weapon-trigger keys, the empty "no key" symbol, and any other (invalid)
symbol. -/
inductive Key where
| kw
| ka
| ks
| kd
| kA
| kB
| kNone
| kOther
deriving DecidableEq, Repr

/-- Shallow embedding of `key2direction` (src/game.py lines 29-38). -/
def key2direction (k : Key) : Option Direction :=
  match k with
  | Key.kw => some Direction.north
  | Key.ka => some Direction.west
  | Key.ks => some Direction.south
  | Key.kd => some Direction.east
  | _ => none

/-- The rope weapon state: the ordered cell list `_pos` and the locked
direction `_dir` (src/game.py lines 41-45).  The map reference held by the
Python object is passed to `shoot` as the `calc_pos` function instead. -/
structure Rope where
  pos : List Pos
  dir : Option Direction
deriving DecidableEq, Repr

/-- A fresh rope, as built by `Rope.__init__` (src/game.py lines 42-45). -/
def Rope.init : Rope :=
  { pos := [], dir := none }

/-- The `new_pos` computation inside `Rope.shoot` (src/game.py lines 53-56):
one non-traversing step from the current tip, or from the player position if
the rope is empty. -/
def Rope.nextCell (calcPos : Pos → Direction → Pos) (r : Rope) (digdugPos : Pos)
    (direction : Direction) : Pos :=
  match r.pos.getLast? with
  | some tip => calcPos tip direction
  | none => calcPos digdugPos direction

/-- The extension part of `Rope.shoot` (src/game.py lines 53-66): compute the
next cell; on self-intersection reset both fields; otherwise append the cell,
lock the direction, and clear only the cell list when the length would exceed
MAX_LEN_ROPE. -/
def Rope.shootExtend (calcPos : Pos → Direction → Pos) (r : Rope) (digdugPos : Pos)
    (direction : Direction) : Rope :=
  let new_pos := Rope.nextCell calcPos r digdugPos direction
  if new_pos ∈ r.pos then { pos := [], dir := none }
  else
    let pos2 := r.pos ++ [new_pos]
    if MAX_LEN_ROPE < pos2.length then { pos := [], dir := some direction }
    else { pos := pos2, dir := some direction }

/-- Shallow embedding of `Rope.shoot` (src/game.py lines 47-66).  The Python
guard `if self._dir and direction != self._dir` reads the truthiness of the
locked direction (None is falsy, enum members are truthy). -/
def Rope.shoot (calcPos : Pos → Direction → Pos) (r : Rope) (digdugPos : Pos)
    (direction : Direction) : Rope :=
  match r.dir with
  | some d0 =>
    if direction ≠ d0 then { pos := [], dir := none }
    else Rope.shootExtend calcPos r digdugPos direction
  | none => Rope.shootExtend calcPos r digdugPos direction

/-- Shallow embedding of `Rope.hit` (src/game.py lines 68-73): kill the first
enemy whose position lies on the rope (the Python loop returns immediately)
and report whether a hit occurred. -/
def Rope.hit (r : Rope) : List Enemy → List Enemy × Bool
  | [] => ([], false)
  | e :: rest =>
    if e.pos ∈ r.pos then (e.kill false :: rest, true)
    else
      let t := Rope.hit r rest
      (e :: t.1, t.2)

/-- Modelled from the spec: the external movement collaborators of the absent
`characters.py` module.  Each `move` mutates only its own entity's state,
given read access to the terrain and the sibling collections. -/
structure Moves where
  digdugMove : Map → Option Direction → List Enemy → List Rock → DigDug → DigDug
  enemyMove : Map → DigDug → List Enemy → List Rock → Enemy → Enemy
  rockMove : Map → DigDug → List Rock → Rock → Rock

/-- Shallow embedding of the LEVEL_ENEMIES table (src/game.py lines 22-26) as
a fallible lookup: an undefined level is a Python KeyError, modelled as
`none`. -/
def LEVEL_ENEMIES (level : Nat) : Option (List EnemyType) :=
  match level with
  | 1 => some [EnemyType.Fygar, EnemyType.Fygar, EnemyType.Pooka]
  | 2 => some [EnemyType.Fygar, EnemyType.Fygar, EnemyType.Fygar,
               EnemyType.Pooka, EnemyType.Pooka]
  | 3 => some [EnemyType.Fygar, EnemyType.Fygar, EnemyType.Fygar,
               EnemyType.Fygar, EnemyType.Fygar,
               EnemyType.Pooka, EnemyType.Pooka]
  | _ => none

/-- The Game state (src/game.py lines 76-88).  The Python `_state` snapshot
dict is not stored: the per-tick routine returns the assembled snapshot
instead. -/
structure Game where
  initial_level : Nat
  running : Bool
  timeout : Nat
  score : Nat
  step : Nat
  total_steps : Nat
  initial_lives : Int
  map : Map
  digdug : DigDug
  enemies : List Enemy
  rocks : List Rock
  rope : Rope
  lastkeypress : Key
  player_name : String

/-- Shallow embedding of `Game.stop` (src/game.py lines 112-115). -/
def Game.stop (g : Game) : Game :=
  { g with total_steps := g.total_steps + g.step, running := false }

/-- Shallow embedding of `Game.quit` (src/game.py lines 135-137). -/
def Game.quit (g : Game) : Game :=
  { g with running := false }

/-- Shallow embedding of `Game.keypress` (src/game.py lines 139-140). -/
def Game.keypress (g : Game) (k : Key) : Game :=
  { g with lastkeypress := k }

/-- Shallow embedding of `Game.next_level` (src/game.py lines 117-133).  The
win check at the top of the source function is a dead string literal (it was
commented out), so it is absent here; an undefined level therefore makes the
LEVEL_ENEMIES lookup fail (a Python KeyError), modelled as `none`.  The
external generator `Map(level=level, size=...)` is passed in as `mkMap`.
Enemy and rock identities come from the absent characters module and are
modelled as list indices. -/
def Game.next_level (mkMap : Nat → Nat × Nat → Map) (g : Game) (level : Nat) :
    Option Game :=
  let m := mkMap level g.map.size
  let dd := g.digdug.respawn
  match LEVEL_ENEMIES level with
  | none => none
  | some comp =>
    some { g with
      map := m,
      digdug := dd,
      total_steps := g.total_steps + g.step,
      step := 0,
      lastkeypress := Key.kNone,
      enemies := (List.zip comp m.enemies_spawn).enum.map fun ip =>
        { etype := ip.2.1, id := ip.1, pos := ip.2.2, spawn := ip.2.2,
          alive := true, exit := false, killedByRock := false,
          tierPoints := TIER_POINTS },
      rocks := m.rocks.enum.map fun ip => { id := ip.1, pos := ip.2 } }

/-- Shallow embedding of `Game.start` (src/game.py lines 102-110). -/
def Game.start (mkMap : Nat → Nat × Nat → Map) (g : Game) (player_name : String) :
    Option Game :=
  let g1 := { g with
    player_name := player_name,
    running := true,
    total_steps := 0,
    score := INITIAL_SCORE,
    digdug := DigDug.init g.map.digdug_spawn g.initial_lives }
  Game.next_level mkMap g1 g1.initial_level

/-- Shallow embedding of `Game.__init__` (src/game.py lines 76-88).  The
external empty-map generator `Map(size=size, empty=True)` is passed in as the
pre-built map `m0` (its `size` field plays the role of the `size` argument).
The player character is only created in `start`; the field holds a placeholder
at the spawn until then. -/
def Game.init (level : Nat) (lives : Int) (timeout : Nat) (m0 : Map) : Game :=
  { initial_level := level, running := false, timeout := timeout, score := 0,
    step := 0, total_steps := 0, initial_lives := lives, map := m0,
    digdug := DigDug.init m0.digdug_spawn lives, enemies := [], rocks := [],
    rope := Rope.init, lastkeypress := Key.kNone, player_name := "" }

/-- Shallow embedding of `Game.kill_digdug` (src/game.py lines 171-183): kill
the player; with lives remaining, respawn the player and force every enemy
within VITAL_SPACE of the spawn to respawn (camper eviction), else stop the
match.  Python compares the Euclidean `math.dist` against VITAL_SPACE; with
integer coordinates that is exactly the squared-distance comparison used
here. -/
def Game.kill_digdug (g : Game) : Game :=
  let dd := g.digdug.kill
  if 0 < dd.lives then
    let dd2 := dd.respawn
    { g with
      digdug := dd2,
      enemies := g.enemies.map fun e =>
        if (dd2.pos.1 - e.pos.1) * (dd2.pos.1 - e.pos.1)
            + (dd2.pos.2 - e.pos.2) * (dd2.pos.2 - e.pos.2)
            < (g.map.vitalSpace : Int) * (g.map.vitalSpace : Int)
        then e.respawn else e }
  else
    Game.stop { g with digdug := dd }

/-- Shallow embedding of `Game.update_digdug` (src/game.py lines 142-169): on
a weapon trigger, shoot the rope and, on a hit, replace it with a fresh one;
on a movement key, first replace the rope with a fresh one and then move the
player; on the empty symbol, move with no direction; on an invalid symbol the
assertion fails and nothing in the try block runs.  The buffered key is always
cleared, and the dead level-advance guard `len(self._enemies) < 0` is then
checked (list lengths are naturals in Python as in this embedding). -/
def Game.update_digdug (mv : Moves) (mkMap : Nat → Nat × Nat → Map) (g : Game) :
    Option Game :=
  let g1 :=
    match g.lastkeypress with
    | Key.kA | Key.kB =>
      let rope1 := Rope.shoot g.map.calc_pos g.rope g.digdug.pos g.digdug.direction
      let hr := Rope.hit rope1 g.enemies
      if hr.2 then { g with enemies := hr.1, rope := Rope.init }
      else { g with enemies := hr.1, rope := rope1 }
    | Key.kw | Key.ka | Key.ks | Key.kd =>
      let g2 := { g with rope := Rope.init }
      { g2 with
        digdug := mv.digdugMove g2.map (key2direction g.lastkeypress) g2.enemies
          g2.rocks g2.digdug }
    | Key.kNone =>
      { g with digdug := mv.digdugMove g.map none g.enemies g.rocks g.digdug }
    | Key.kOther => g
  let g3 := { g1 with lastkeypress := Key.kNone }
  if g3.enemies.length < 0 then
    Game.next_level mkMap g3 (g3.map.level + 1)
  else
    some g3

/-- The enemy loop of `Game.collision` (src/game.py lines 186-189), iterated
by index with explicit fuel (the list object is mutated element-wise in
Python, its length never changes): an enemy at the player's position triggers
`kill_digdug` and is then itself respawned. -/
def Game.collisionEnemiesAux (g : Game) (i : Nat) : Nat → Game
  | 0 => g
  | fuel + 1 =>
    let g' :=
      match g.enemies.get? i with
      | some e =>
        if e.pos = g.digdug.pos then
          let g2 := Game.kill_digdug g
          match g2.enemies.get? i with
          | some e2 => { g2 with enemies := g2.enemies.set i e2.respawn }
          | none => g2
        else g
      | none => g
    Game.collisionEnemiesAux g' (i + 1) fuel

/-- The inner enemy loop of the rock phase of `Game.collision` (src/game.py
lines 193-196): every enemy at the rock's position is killed with the rock
cause and its points are credited immediately. -/
def Game.collisionRockEnemiesAux (g : Game) (rpos : Pos) (i : Nat) : Nat → Game
  | 0 => g
  | fuel + 1 =>
    let g' :=
      match g.enemies.get? i with
      | some e =>
        if rpos = e.pos then
          let e2 := e.kill true
          { g with
            enemies := g.enemies.set i e2,
            score := g.score + Enemy.points e2 g.map.ver_tiles }
        else g
      | none => g
    Game.collisionRockEnemiesAux g' rpos (i + 1) fuel

/-- The rock loop of `Game.collision` (src/game.py lines 190-196): a rock at
the player's position triggers `kill_digdug`; then every enemy at the rock's
position is killed and credited. -/
def Game.collisionRocksAux (g : Game) (j : Nat) : Nat → Game
  | 0 => g
  | fuel + 1 =>
    let g' :=
      match g.rocks.get? j with
      | some r =>
        let g1 := if r.pos = g.digdug.pos then Game.kill_digdug g else g
        Game.collisionRockEnemiesAux g1 r.pos 0 g1.enemies.length
      | none => g
    Game.collisionRocksAux g' (j + 1) fuel

/-- Shallow embedding of `Game.collision` (src/game.py lines 185-196). -/
def Game.collision (g : Game) : Game :=
  let g1 := Game.collisionEnemiesAux g 0 g.enemies.length
  Game.collisionRocksAux g1 0 g1.rocks.length

/-- The enemy movement loop of `Game.next_frame` (src/game.py lines 216-218):
alive enemies move one after another, each seeing the partially updated
collection (earlier enemies already moved), and each `move` mutates only the
enemy itself. -/
def moveEnemiesAux (mv : Moves) (m : Map) (dd : DigDug) (rocks : List Rock)
    (done : List Enemy) : List Enemy → List Enemy
  | [] => done
  | e :: rest =>
    let e' := if e.alive then mv.enemyMove m dd (done ++ e :: rest) rocks e else e
    moveEnemiesAux mv m dd rocks (done ++ [e']) rest

/-- The rock movement loop of `Game.next_frame` (src/game.py lines 220-221). -/
def moveRocksAux (mv : Moves) (m : Map) (dd : DigDug) (done : List Rock) :
    List Rock → List Rock
  | [] => done
  | r :: rest =>
    let r' := mv.rockMove m dd (done ++ r :: rest) r
    moveRocksAux mv m dd (done ++ [r']) rest

/-- An enemy summary inside the snapshot (src/game.py lines 236-238). -/
structure EnemySummary where
  name : String
  id : Nat
  pos : Pos
deriving DecidableEq, Repr

/-- A rock summary inside the snapshot (src/game.py lines 239-241). -/
structure RockSummary where
  id : Nat
  pos : Pos
deriving DecidableEq, Repr

/-- The per-tick snapshot (src/game.py lines 228-244): one flat record, with
the rope summary present only while the rope's cell list is non-empty. -/
structure Snapshot where
  level : Nat
  step : Nat
  timeout : Nat
  player : String
  score : Nat
  lives : Int
  digdug : Pos
  enemies : List EnemySummary
  rocks : List RockSummary
  rope : Option (Option Direction × List Pos)
deriving DecidableEq, Repr

/-- Assembly of the snapshot from the current state (src/game.py lines
228-244). -/
def Game.mkState (g : Game) : Snapshot :=
  { level := g.map.level, step := g.step, timeout := g.timeout,
    player := g.player_name, score := g.score, lives := g.digdug.lives,
    digdug := g.digdug.pos,
    enemies := g.enemies.map fun (e : Enemy) =>
      { name := e.name, id := e.id, pos := e.pos },
    rocks := g.rocks.map fun (r : Rock) => { id := r.id, pos := r.pos },
    rope := if g.rope.pos.isEmpty then none else some (g.rope.dir, g.rope.pos) }

/-- Shallow embedding of `Game.next_frame` (src/game.py lines 198-246), minus
the real-time sleep at its top.  While not running, the routine returns no
snapshot; otherwise it increments the step counter (stopping when it reaches
the timeout), resolves input, moves enemies and rocks, credits every dead
enemy, filters the collection to alive-and-not-exited enemies, resolves
collisions, and assembles the snapshot. -/
def Game.next_frame (mv : Moves) (mkMap : Nat → Nat × Nat → Map) (g : Game) :
    Option (Game × Option Snapshot) :=
  if g.running = false then some (g, none)
  else
    let g1 := { g with step := g.step + 1 }
    let g2 := if g1.step = g1.timeout then Game.stop g1 else g1
    match Game.update_digdug mv mkMap g2 with
    | none => none
    | some g3 =>
      let g4 := { g3 with
        enemies := moveEnemiesAux mv g3.map g3.digdug g3.rocks [] g3.enemies }
      let g5 := { g4 with
        rocks := moveRocksAux mv g4.map g4.digdug [] g4.rocks }
      let g6 := { g5 with
        score := g5.score +
          ((g5.enemies.filter fun (e : Enemy) => !e.alive).map fun (e : Enemy) =>
            Enemy.points e g5.map.ver_tiles).sum }
      let g7 := { g6 with
        enemies := g6.enemies.filter fun e => e.alive && !e.exit }
      let g8 := Game.collision g7
      some (g8, some (Game.mkState g8))

/-- The tail of `Game.next_frame` after input resolution, named so theorems
can speak about it: entity movement, pre-filter crediting, the
alive-and-not-exited filter, and collision resolution (src/game.py lines
216-226). -/
def Game.afterUpdate (mv : Moves) (g3 : Game) : Game :=
  let g4 := { g3 with
    enemies := moveEnemiesAux mv g3.map g3.digdug g3.rocks [] g3.enemies }
  let g5 := { g4 with
    rocks := moveRocksAux mv g4.map g4.digdug [] g4.rocks }
  let g6 := { g5 with
    score := g5.score +
      ((g5.enemies.filter fun (e : Enemy) => !e.alive).map fun (e : Enemy) =>
        Enemy.points e g5.map.ver_tiles).sum }
  let g7 := { g6 with
    enemies := g6.enemies.filter fun e => e.alive && !e.exit }
  Game.collision g7

/-- The Boolean that `Rope.hit` returns during a tick's input resolution
(src/game.py line 150), computed from the pre-tick state: it is what decides
whether the rope is replaced by a fresh one. -/
def Game.ropeHitThisTick (g : Game) : Bool :=
  match g.lastkeypress with
  | Key.kA | Key.kB =>
    (Rope.hit (Rope.shoot g.map.calc_pos g.rope g.digdug.pos g.digdug.direction)
      g.enemies).2
  | _ => false

/-- Shallow embedding of `Game.info` (src/game.py lines 253-262): note the
`timeout` and `lives` entries read the module constants, not the instance
fields. -/
structure InfoRecord where
  size : Nat × Nat
  map : List (List Nat)
  fps : Nat
  timeout : Nat
  lives : Int
  score : Nat
  level : Nat
deriving DecidableEq, Repr

/-- Shallow embedding of `Game.info` (src/game.py lines 253-262). -/
def Game.info (g : Game) : InfoRecord :=
  { size := g.map.size, map := g.map.map, fps := GAME_SPEED,
    timeout := TIMEOUT, lives := LIVES, score := g.score, level := g.map.level }

/-- A concrete terrain instance, used as a test double for the external map
in the closed evaluations below: a plain one-step `calc_pos` with no walls. -/
def cmap : Map :=
  { level := 1, size := (32, 32), ver_tiles := 32, digdug_spawn := (1, 1),
    enemies_spawn := [(10, 10), (20, 20)], rocks := [(5, 5)], map := [[0]],
    vitalSpace := 3,
    calc_pos := fun p d =>
      match d with
      | Direction.north => (p.1, p.2 - 1)
      | Direction.south => (p.1, p.2 + 1)
      | Direction.west => (p.1 - 1, p.2)
      | Direction.east => (p.1 + 1, p.2) }

/-- A concrete map generator built on `cmap`. -/
def mkMap0 : Nat → Nat × Nat → Map :=
  fun level size => { cmap with level := level, size := size }

/-- Identity movement collaborators: every entity stays put (a legitimate
instance of the external movement contract). -/
def idMoves : Moves :=
  { digdugMove := fun _ _ _ _ d => d,
    enemyMove := fun _ _ _ _ e => e,
    rockMove := fun _ _ _ r => r }

/-- A live enemy sitting at cell (5,5), where a rock also sits in `gRC`. -/
def eRC : Enemy :=
  { etype := EnemyType.Pooka, id := 0, pos := (5, 5), spawn := (10, 10),
    alive := true, exit := false, killedByRock := false, tierPoints := TIER_POINTS }

/-- A running game in which one enemy and one rock share cell (5,5) while the
player stands elsewhere: the configuration in which the collision resolver's
rock-crush branch fires. -/
def gRC : Game :=
  { initial_level := 1, running := true, timeout := 3000, score := 0, step := 0,
    total_steps := 0, initial_lives := 3, map := cmap,
    digdug := { pos := (1, 1), spawn := (1, 1), lives := 3,
                direction := Direction.east },
    enemies := [eRC], rocks := [{ id := 0, pos := (5, 5) }], rope := Rope.init,
    lastkeypress := Key.kNone, player_name := "p" }

/-- First of two enemies standing on the player's cell in `gTwo`. -/
def eTwo1 : Enemy :=
  { etype := EnemyType.Fygar, id := 0, pos := (3, 3), spawn := (10, 10),
    alive := true, exit := false, killedByRock := false, tierPoints := TIER_POINTS }

/-- Second of two enemies standing on the player's cell in `gTwo`. -/
def eTwo2 : Enemy :=
  { etype := EnemyType.Pooka, id := 1, pos := (3, 3), spawn := (20, 20),
    alive := true, exit := false, killedByRock := false, tierPoints := TIER_POINTS }

/-- A game in which the player, on their last life, coincides with two
enemies at cell (3,3): two simultaneous collisions apply to the player. -/
def gTwo : Game :=
  { initial_level := 1, running := true, timeout := 3000, score := 0, step := 7,
    total_steps := 0, initial_lives := 3, map := cmap,
    digdug := { pos := (3, 3), spawn := (1, 1), lives := 1,
                direction := Direction.east },
    enemies := [eTwo1, eTwo2], rocks := [], rope := Rope.init,
    lastkeypress := Key.kNone, player_name := "p" }

/-- A live enemy one cell east of the player, for the C7 hit witness. -/
def eHit : Enemy :=
  { etype := EnemyType.Fygar, id := 0, pos := (6, 5), spawn := (12, 12),
    alive := true, exit := false, killedByRock := false, tierPoints := TIER_POINTS }

/-- A running game whose buffered key is a weapon trigger and whose shot will
hit `eHit`, for the C7 witness. -/
def gHit : Game :=
  { initial_level := 1, running := true, timeout := 3000, score := 0, step := 3,
    total_steps := 0, initial_lives := 3, map := cmap,
    digdug := { pos := (5, 5), spawn := (1, 1), lives := 3,
                direction := Direction.east },
    enemies := [eHit], rocks := [], rope := Rope.init,
    lastkeypress := Key.kA, player_name := "p" }

/-- A concrete running game derived from `gRC` whose incremented step counter
reaches its configured timeout on the next tick, for the C8 witness. -/
def gT8 : Game :=
  { gRC with step := 4, timeout := 5 }

/-- A game constructed through `Game.init` with a non-default timeout (100)
and life count (5), for the C9 witness. -/
def gInit9 : Game :=
  Game.init 1 5 100 cmap

/-- The C9 witness game after `start`: running, with the non-default
configuration retained in its instance fields. -/
def gW9 : Game :=
  (Game.start mkMap0 gInit9 "bot").getD gInit9

/-- A running game with an empty enemy collection, for the C3 witness. -/
def gEmpty : Game :=
  { gRC with enemies := [] }

/-- Fields of the game state that the collision resolver never changes,
together with the fact that a stopped match stays stopped through it. -/
def Pres (g g' : Game) : Prop :=
  g'.step = g.step ∧ g'.rope = g.rope ∧ g'.timeout = g.timeout ∧
  g'.map = g.map ∧ g'.player_name = g.player_name ∧
  (g.running = false → g'.running = false)

/-- The per-enemy invariant that holds after a completed tick: not exited,
and dead only when the death was rock-caused. -/
def EnemyOk (e : Enemy) : Prop :=
  e.exit = false ∧ (e.alive = false → e.killedByRock = true)

/-- Every enemy in the collection satisfies `EnemyOk`. -/
def AllOk (g : Game) : Prop :=
  ∀ e ∈ g.enemies, EnemyOk e

theorem Pres.refl (g : Game) : Pres g g :=
  ⟨rfl, rfl, rfl, rfl, rfl, fun h => h⟩

theorem Pres.trans {g1 g2 g3 : Game} (h1 : Pres g1 g2) (h2 : Pres g2 g3) :
    Pres g1 g3 := by
  obtain ⟨a1, b1, c1, d1, e1, f1⟩ := h1
  obtain ⟨a2, b2, c2, d2, e2, f2⟩ := h2
  exact ⟨a2.trans a1, b2.trans b1, c2.trans c1, d2.trans d1, e2.trans e1,
    fun h => f2 (f1 h)⟩

theorem pres_update_enemies (g : Game) (es : List Enemy) :
    Pres g { g with enemies := es } :=
  ⟨rfl, rfl, rfl, rfl, rfl, fun h => h⟩

theorem pres_update_enemies_score (g : Game) (es : List Enemy) (n : Nat) :
    Pres g { g with enemies := es, score := n } :=
  ⟨rfl, rfl, rfl, rfl, rfl, fun h => h⟩

theorem kill_digdug_pres (g : Game) : Pres g (Game.kill_digdug g) := by
  unfold Game.kill_digdug Game.stop
  dsimp only
  split
  · exact ⟨rfl, rfl, rfl, rfl, rfl, fun h => h⟩
  · exact ⟨rfl, rfl, rfl, rfl, rfl, fun _ => rfl⟩

theorem collisionEnemiesAux_pres (fuel : Nat) :
    ∀ (g : Game) (i : Nat), Pres g (Game.collisionEnemiesAux g i fuel) := by
  induction fuel with
  | zero => intro g i; exact Pres.refl g
  | succ n ih =>
    intro g i
    unfold Game.collisionEnemiesAux
    dsimp only
    refine Pres.trans ?_ (ih _ _)
    split
    · split
      · split
        · exact Pres.trans (kill_digdug_pres g) (pres_update_enemies _ _)
        · exact kill_digdug_pres g
      · exact Pres.refl g
    · exact Pres.refl g

theorem collisionRockEnemiesAux_pres (fuel : Nat) :
    ∀ (g : Game) (rpos : Pos) (i : Nat),
      Pres g (Game.collisionRockEnemiesAux g rpos i fuel) := by
  induction fuel with
  | zero => intro g rpos i; exact Pres.refl g
  | succ n ih =>
    intro g rpos i
    unfold Game.collisionRockEnemiesAux
    dsimp only
    refine Pres.trans ?_ (ih _ _ _)
    split
    · split
      · exact pres_update_enemies_score _ _ _
      · exact Pres.refl g
    · exact Pres.refl g

theorem collisionRocksAux_pres (fuel : Nat) :
    ∀ (g : Game) (j : Nat), Pres g (Game.collisionRocksAux g j fuel) := by
  induction fuel with
  | zero => intro g j; exact Pres.refl g
  | succ n ih =>
    intro g j
    unfold Game.collisionRocksAux
    dsimp only
    refine Pres.trans ?_ (ih _ _)
    split
    · refine Pres.trans ?_ (collisionRockEnemiesAux_pres _ _ _ _)
      split
      · exact kill_digdug_pres g
      · exact Pres.refl g
    · exact Pres.refl g

theorem collision_pres (g : Game) : Pres g (Game.collision g) := by
  unfold Game.collision
  exact Pres.trans (collisionEnemiesAux_pres _ _ _) (collisionRocksAux_pres _ _ _)

theorem enemyOk_respawn {e : Enemy} (h : EnemyOk e) : EnemyOk e.respawn := h

theorem enemyOk_kill_rock {e : Enemy} (h : e.exit = false) :
    EnemyOk (e.kill true) :=
  ⟨h, fun _ => rfl⟩

theorem allOk_set {l : List Enemy} {i : Nat} {a : Enemy}
    (h : ∀ e ∈ l, EnemyOk e) (ha : EnemyOk a) : ∀ e ∈ l.set i a, EnemyOk e := by
  intro e he
  rcases List.mem_or_eq_of_mem_set he with h1 | h1
  · exact h e h1
  · rw [h1]; exact ha

theorem allOk_kill_digdug {g : Game} (h : AllOk g) : AllOk (Game.kill_digdug g) := by
  unfold Game.kill_digdug Game.stop
  dsimp only
  split
  · intro e he
    dsimp only at he
    rw [List.mem_map] at he
    obtain ⟨e0, he0, rfl⟩ := he
    split
    · exact enemyOk_respawn (h e0 he0)
    · exact h e0 he0
  · intro e he
    exact h e he

theorem allOk_collisionEnemiesAux (fuel : Nat) :
    ∀ (g : Game) (i : Nat), AllOk g → AllOk (Game.collisionEnemiesAux g i fuel) := by
  induction fuel with
  | zero => intro g i h; exact h
  | succ n ih =>
    intro g i h
    unfold Game.collisionEnemiesAux
    dsimp only
    refine ih _ _ ?_
    split
    · split
      · split
        · rename_i e2 heq2
          exact allOk_set (allOk_kill_digdug h)
            (enemyOk_respawn (allOk_kill_digdug h _ (List.get?_mem heq2)))
        · exact allOk_kill_digdug h
      · exact h
    · exact h

theorem allOk_collisionRockEnemiesAux (fuel : Nat) :
    ∀ (g : Game) (rpos : Pos) (i : Nat), AllOk g →
      AllOk (Game.collisionRockEnemiesAux g rpos i fuel) := by
  induction fuel with
  | zero => intro g rpos i h; exact h
  | succ n ih =>
    intro g rpos i h
    unfold Game.collisionRockEnemiesAux
    dsimp only
    refine ih _ _ _ ?_
    split
    · rename_i e heq
      split
      · exact allOk_set h (enemyOk_kill_rock (h _ (List.get?_mem heq)).1)
      · exact h
    · exact h

theorem allOk_collisionRocksAux (fuel : Nat) :
    ∀ (g : Game) (j : Nat), AllOk g → AllOk (Game.collisionRocksAux g j fuel) := by
  induction fuel with
  | zero => intro g j h; exact h
  | succ n ih =>
    intro g j h
    unfold Game.collisionRocksAux
    dsimp only
    refine ih _ _ ?_
    split
    · refine allOk_collisionRockEnemiesAux _ _ _ _ ?_
      split
      · exact allOk_kill_digdug h
      · exact h
    · exact h

theorem allOk_collision {g : Game} (h : AllOk g) : AllOk (Game.collision g) := by
  unfold Game.collision
  exact allOk_collisionRocksAux _ _ _ (allOk_collisionEnemiesAux _ _ _ h)

theorem update_digdug_isSome (mv : Moves) (mkMap : Nat → Nat × Nat → Map)
    (g : Game) : (Game.update_digdug mv mkMap g).isSome = true := by
  unfold Game.update_digdug
  dsimp only
  rw [if_neg (Nat.not_lt_zero _)]
  rfl

theorem update_digdug_fields (mv : Moves) (mkMap : Nat → Nat × Nat → Map)
    (g g' : Game) (h : Game.update_digdug mv mkMap g = some g') :
    g'.step = g.step ∧ g'.timeout = g.timeout ∧ g'.total_steps = g.total_steps ∧
    g'.running = g.running ∧ g'.map = g.map ∧ g'.score = g.score ∧
    g'.player_name = g.player_name := by
  unfold Game.update_digdug at h
  dsimp only at h
  rw [if_neg (Nat.not_lt_zero _)] at h
  cases hk : g.lastkeypress <;> rw [hk] at h <;> dsimp only at h
  case kA =>
    split at h
    all_goals injection h with h
    all_goals subst h
    all_goals exact ⟨rfl, rfl, rfl, rfl, rfl, rfl, rfl⟩
  case kB =>
    split at h
    all_goals injection h with h
    all_goals subst h
    all_goals exact ⟨rfl, rfl, rfl, rfl, rfl, rfl, rfl⟩
  all_goals injection h with h
  all_goals subst h
  all_goals exact ⟨rfl, rfl, rfl, rfl, rfl, rfl, rfl⟩

theorem update_digdug_rope_on_hit (mv : Moves) (mkMap : Nat → Nat × Nat → Map)
    (g g' : Game) (h : Game.update_digdug mv mkMap g = some g')
    (hhit : Game.ropeHitThisTick g = true) : g'.rope = Rope.init := by
  unfold Game.update_digdug at h
  unfold Game.ropeHitThisTick at hhit
  dsimp only at h
  rw [if_neg (Nat.not_lt_zero _)] at h
  cases hk : g.lastkeypress <;> rw [hk] at h <;> rw [hk] at hhit <;>
    dsimp only at h <;> dsimp only at hhit
  case kA =>
    rw [if_pos hhit] at h
    injection h with h; subst h; rfl
  case kB =>
    rw [if_pos hhit] at h
    injection h with h; subst h; rfl
  all_goals exact absurd hhit (by simp)

theorem next_frame_eq (mv : Moves) (mkMap : Nat → Nat × Nat → Map) (g : Game)
    (hrun : g.running = true) :
    Game.next_frame mv mkMap g =
      (Game.update_digdug mv mkMap
        (if g.step + 1 = g.timeout then Game.stop { g with step := g.step + 1 }
         else { g with step := g.step + 1 })).map
        fun g3 =>
          (Game.afterUpdate mv g3, some (Game.mkState (Game.afterUpdate mv g3))) := by
  unfold Game.next_frame Game.afterUpdate
  rw [if_neg (by simp [hrun])]
  dsimp only
  cases Game.update_digdug mv mkMap
      (if g.step + 1 = g.timeout then Game.stop { g with step := g.step + 1 }
       else { g with step := g.step + 1 }) with
  | none => rfl
  | some g3 => rfl

theorem ropeHitThisTick_ite (g : Game) (c : Prop) [Decidable c] :
    Game.ropeHitThisTick
      (if c then Game.stop { g with step := g.step + 1 }
       else { g with step := g.step + 1 }) = Game.ropeHitThisTick g := by
  split <;> rfl

theorem afterUpdate_rope (mv : Moves) (g3 : Game) :
    (Game.afterUpdate mv g3).rope = g3.rope := by
  unfold Game.afterUpdate
  dsimp only
  exact (collision_pres _).2.1

theorem afterUpdate_step (mv : Moves) (g3 : Game) :
    (Game.afterUpdate mv g3).step = g3.step := by
  unfold Game.afterUpdate
  dsimp only
  exact (collision_pres _).1

theorem afterUpdate_timeout (mv : Moves) (g3 : Game) :
    (Game.afterUpdate mv g3).timeout = g3.timeout := by
  unfold Game.afterUpdate
  dsimp only
  exact (collision_pres _).2.2.1

theorem afterUpdate_running_false (mv : Moves) (g3 : Game)
    (h : g3.running = false) : (Game.afterUpdate mv g3).running = false := by
  unfold Game.afterUpdate
  dsimp only
  exact (collision_pres _).2.2.2.2.2 h

theorem allOk_afterUpdate (mv : Moves) (g3 : Game) :
    AllOk (Game.afterUpdate mv g3) := by
  unfold Game.afterUpdate
  dsimp only
  apply allOk_collision
  intro e he
  dsimp only at he
  rw [List.mem_filter] at he
  obtain ⟨-, hb⟩ := he
  have hb2 : e.alive = true ∧ e.exit = false := by
    constructor
    · exact (Bool.and_elim_left hb)
    · simpa using (Bool.and_elim_right hb)
  obtain ⟨ha, hx⟩ := hb2
  exact ⟨hx, fun hdead => absurd ha (by simp [hdead])⟩

theorem shootExtend_length_le (cp : Pos → Direction → Pos) (r : Rope) (p : Pos)
    (d : Direction) : (Rope.shootExtend cp r p d).pos.length ≤ MAX_LEN_ROPE := by
  unfold Rope.shootExtend
  dsimp only
  split
  · simp [MAX_LEN_ROPE]
  · split
    · simp [MAX_LEN_ROPE]
    · rename_i hlt
      simpa using Nat.le_of_not_lt hlt

/-- C4: for every rope state that is Extending (non-empty cell list with a
locked direction), calling shoot with a direction different from the locked
one resets the rope to empty on that call and appends zero cells, for every
value of the locked direction. -/
theorem shoot_direction_change_resets (cp : Pos → Direction → Pos) (r : Rope)
    (p : Pos) (d d0 : Direction) (hpos : r.pos ≠ []) (hdir : r.dir = some d0)
    (hne : d ≠ d0) :
    Rope.shoot cp r p d = { pos := [], dir := none } ∧
    (Rope.shoot cp r p d).pos.length = 0 := by
  unfold Rope.shoot
  rw [hdir]
  dsimp only
  rw [if_pos hne]
  exact ⟨rfl, rfl⟩

/-- Witness for C4 at a concrete Extending rope: one cell, locked north, shot
east. -/
theorem shoot_direction_change_resets_witness :
    Rope.shoot cmap.calc_pos
        { pos := [((2 : Int), (2 : Int))], dir := some Direction.north }
        (0, 0) Direction.east
      = { pos := [], dir := none } ∧
    (Rope.shoot cmap.calc_pos
        { pos := [((2 : Int), (2 : Int))], dir := some Direction.north }
        (0, 0) Direction.east).pos.length = 0 :=
  shoot_direction_change_resets cmap.calc_pos _ _ Direction.east Direction.north
    (by decide) rfl (by decide)

/-- C10: when a shoot call triggers the length-overflow auto-retract, only
the cell list is cleared and the locked direction field keeps the direction
just locked (it is not reset to none), unlike the direction-change and
self-intersection reset paths, which clear both fields. -/
theorem shoot_overflow_keeps_direction :
    (∀ (cp : Pos → Direction → Pos) (r : Rope) (p : Pos) (d : Direction),
      (r.dir = none ∨ r.dir = some d) →
      Rope.nextCell cp r p d ∉ r.pos → MAX_LEN_ROPE ≤ r.pos.length →
      Rope.shoot cp r p d = { pos := [], dir := some d }) ∧
    (∀ (cp : Pos → Direction → Pos) (r : Rope) (p : Pos) (d : Direction),
      (r.dir = none ∨ r.dir = some d) →
      Rope.nextCell cp r p d ∈ r.pos →
      Rope.shoot cp r p d = { pos := [], dir := none }) ∧
    (∀ (cp : Pos → Direction → Pos) (r : Rope) (p : Pos) (d d0 : Direction),
      r.dir = some d0 → d ≠ d0 →
      Rope.shoot cp r p d = { pos := [], dir := none }) := by
  refine ⟨?_, ?_, ?_⟩
  · intro cp r p d hdir hmem hlen
    have hext : Rope.shootExtend cp r p d = { pos := [], dir := some d } := by
      unfold Rope.shootExtend
      dsimp only
      rw [if_neg hmem]
      rw [if_pos (by simpa [List.length_append] using Nat.lt_succ_of_le hlen)]
    rcases hdir with h | h
    · unfold Rope.shoot
      rw [h]
      exact hext
    · unfold Rope.shoot
      rw [h]
      dsimp only
      rw [if_neg (by simp)]
      exact hext
  · intro cp r p d hdir hmem
    have hext : Rope.shootExtend cp r p d = { pos := [], dir := none } := by
      unfold Rope.shootExtend
      dsimp only
      rw [if_pos hmem]
    rcases hdir with h | h
    · unfold Rope.shoot
      rw [h]
      exact hext
    · unfold Rope.shoot
      rw [h]
      dsimp only
      rw [if_neg (by simp)]
      exact hext
  · intro cp r p d d0 hdir hne
    unfold Rope.shoot
    rw [hdir]
    dsimp only
    rw [if_pos hne]

/-- Witness for C10: a three-cell east rope overflows and keeps its locked
direction; a self-intersecting rope and a direction change clear both
fields. -/
theorem shoot_overflow_keeps_direction_witness :
    Rope.shoot cmap.calc_pos
        { pos := [((2 : Int), (0 : Int)), ((3 : Int), (0 : Int)),
                  ((4 : Int), (0 : Int))], dir := some Direction.east }
        (1, 0) Direction.east
      = { pos := [], dir := some Direction.east } ∧
    Rope.shoot cmap.calc_pos
        { pos := [((1 : Int), (0 : Int)), ((0 : Int), (0 : Int))],
          dir := some Direction.east }
        (9, 9) Direction.east
      = { pos := [], dir := none } ∧
    Rope.shoot cmap.calc_pos
        { pos := [((2 : Int), (2 : Int))], dir := some Direction.south }
        (0, 0) Direction.west
      = { pos := [], dir := none } :=
  ⟨shoot_overflow_keeps_direction.1 cmap.calc_pos _ _ Direction.east
      (Or.inr rfl) (by decide) (by decide),
   shoot_overflow_keeps_direction.2.1 cmap.calc_pos _ _ Direction.east
      (Or.inr rfl) (by decide),
   shoot_overflow_keeps_direction.2.2 cmap.calc_pos _ _ Direction.west
      Direction.south rfl (by decide)⟩

/-- C7: for all inputs the rope's cell list never exceeds MAX_LEN_ROPE = 3
cells after any shoot call, and the rope is empty immediately after any tick
in which hit() returned true. -/
theorem rope_bounded_and_cleared_on_hit :
    (∀ (cp : Pos → Direction → Pos) (r : Rope) (p : Pos) (d : Direction),
      (Rope.shoot cp r p d).pos.length ≤ MAX_LEN_ROPE) ∧
    (∀ (mv : Moves) (mkMap : Nat → Nat × Nat → Map) (g : Game)
      (r : Game × Option Snapshot),
      g.running = true → Game.ropeHitThisTick g = true →
      Game.next_frame mv mkMap g = some r → r.1.rope.pos = []) := by
  constructor
  · intro cp r p d
    unfold Rope.shoot
    split
    · split
      · simp [MAX_LEN_ROPE]
      · exact shootExtend_length_le cp r p d
    · exact shootExtend_length_le cp r p d
  · intro mv mkMap g r hrun hhit h
    rw [next_frame_eq mv mkMap g hrun] at h
    have hhit2 : Game.ropeHitThisTick
        (if g.step + 1 = g.timeout then Game.stop { g with step := g.step + 1 }
         else { g with step := g.step + 1 }) = true := by
      rw [ropeHitThisTick_ite]
      exact hhit
    cases h3 : Game.update_digdug mv mkMap
        (if g.step + 1 = g.timeout then Game.stop { g with step := g.step + 1 }
         else { g with step := g.step + 1 }) with
    | none => rw [h3] at h; cases h
    | some g3 =>
      rw [h3] at h
      have hr3 := update_digdug_rope_on_hit _ _ _ _ h3 hhit2
      dsimp only [Option.map] at h
      injection h with h
      subst h
      dsimp only
      rw [afterUpdate_rope, hr3]
      rfl

/-- Witness for C7: a concrete bounded shot, and a concrete tick in which the
rope hit an enemy and ends empty. -/
theorem rope_bounded_and_cleared_on_hit_witness :
    (Rope.shoot cmap.calc_pos
        { pos := [((1 : Int), (0 : Int))], dir := some Direction.east }
        (0, 0) Direction.east).pos.length ≤ MAX_LEN_ROPE ∧
    Game.ropeHitThisTick gHit = true ∧
    ((Game.next_frame idMoves mkMap0 gHit).getD (gHit, none)).1.rope.pos = [] :=
  ⟨rope_bounded_and_cleared_on_hit.1 cmap.calc_pos _ _ _,
   by decide,
   rope_bounded_and_cleared_on_hit.2 idMoves mkMap0 gHit _ rfl (by decide) rfl⟩

/-- C6: calling the player-death policy with exactly 1 life leaves lives at 0
and transitions the match to GameOver (running becomes false); calling it
with more than 1 life leaves the match Running, decrements lives by exactly
one, and repositions the player to the terrain spawn point. -/
theorem kill_digdug_lives_policy (g : Game) :
    (g.digdug.lives = 1 →
      (Game.kill_digdug g).digdug.lives = 0 ∧
      (Game.kill_digdug g).running = false) ∧
    (1 < g.digdug.lives → g.running = true →
      (Game.kill_digdug g).running = true ∧
      (Game.kill_digdug g).digdug.lives = g.digdug.lives - 1 ∧
      (Game.kill_digdug g).digdug.pos = g.digdug.spawn) := by
  constructor
  · intro h1
    unfold Game.kill_digdug Game.stop
    dsimp only
    rw [if_neg (by simp [DigDug.kill, h1])]
    constructor
    · show g.digdug.lives - 1 = 0
      rw [h1]
      rfl
    · rfl
  · intro h1 hrun
    unfold Game.kill_digdug
    dsimp only
    rw [if_pos (by simp only [DigDug.kill]; omega)]
    exact ⟨hrun, rfl, rfl⟩

/-- Witness for C6: the last-life case on `gTwo` (lives = 1) and the
remaining-lives case on `gRC` (lives = 3). -/
theorem kill_digdug_lives_policy_witness :
    ((Game.kill_digdug gTwo).digdug.lives = 0 ∧
     (Game.kill_digdug gTwo).running = false) ∧
    ((Game.kill_digdug gRC).running = true ∧
     (Game.kill_digdug gRC).digdug.lives = gRC.digdug.lives - 1 ∧
     (Game.kill_digdug gRC).digdug.pos = gRC.digdug.spawn) :=
  ⟨(kill_digdug_lives_policy gTwo).1 rfl,
   (kill_digdug_lives_policy gRC).2 (by decide) rfl⟩

/-- C8: on the tick where the incremented step counter equals the configured
timeout, stop() is invoked (running becomes false on that exact tick) and the
remainder of the tick still runs to completion: a snapshot assembled from the
final post-collision state is returned, carrying the incremented step
count. -/
theorem timeout_stops_and_completes_tick (mv : Moves)
    (mkMap : Nat → Nat × Nat → Map) (g : Game) (r : Game × Option Snapshot)
    (hrun : g.running = true) (ht : g.step + 1 = g.timeout)
    (h : Game.next_frame mv mkMap g = some r) :
    r.1.running = false ∧ r.2 = some (Game.mkState r.1) ∧
    r.1.step = g.step + 1 ∧ (Game.mkState r.1).step = g.step + 1 := by
  rw [next_frame_eq mv mkMap g hrun] at h
  rw [if_pos ht] at h
  cases h3 : Game.update_digdug mv mkMap
      (Game.stop { g with step := g.step + 1 }) with
  | none => rw [h3] at h; cases h
  | some g3 =>
    rw [h3] at h
    dsimp only [Option.map] at h
    injection h with h
    subst h
    obtain ⟨hstep, -, -, hrunning, -, -, -⟩ := update_digdug_fields _ _ _ _ h3
    have hrf : g3.running = false := by rw [hrunning]; rfl
    have hs : (Game.afterUpdate mv g3).step = g.step + 1 := by
      rw [afterUpdate_step, hstep]
      rfl
    exact ⟨afterUpdate_running_false mv g3 hrf, rfl, hs, hs⟩

/-- Witness for C8: a concrete game whose fifth step hits its timeout of 5;
the tick stops the match yet still returns a snapshot with step 5. -/
theorem timeout_stops_and_completes_tick_witness :
    ((Game.next_frame idMoves mkMap0 gT8).getD (gT8, none)).1.running = false ∧
    ((Game.next_frame idMoves mkMap0 gT8).getD (gT8, none)).2
      = some (Game.mkState
          ((Game.next_frame idMoves mkMap0 gT8).getD (gT8, none)).1) ∧
    ((Game.next_frame idMoves mkMap0 gT8).getD (gT8, none)).1.step
      = gT8.step + 1 ∧
    (Game.mkState ((Game.next_frame idMoves mkMap0 gT8).getD (gT8, none)).1).step
      = gT8.step + 1 :=
  timeout_stops_and_completes_tick idMoves mkMap0 gT8 _ rfl rfl rfl

/-- C9: the match-info query returns the module-level default constants
TIMEOUT = 3000 and LIVES = 3 rather than the instance's configured values,
while the per-tick snapshot reports the instance's configured timeout, so the
two interfaces disagree on any match configured with a non-default
timeout. -/
theorem info_reports_module_defaults (mv : Moves)
    (mkMap : Nat → Nat × Nat → Map) (g : Game) (r : Game × Option Snapshot)
    (s : Snapshot) (hrun : g.running = true)
    (h : Game.next_frame mv mkMap g = some r) (hs : r.2 = some s) :
    (Game.info g).timeout = TIMEOUT ∧ (Game.info g).lives = LIVES ∧
    s.timeout = g.timeout ∧
    (g.timeout ≠ TIMEOUT → (Game.info g).timeout ≠ s.timeout) := by
  have hst : s.timeout = g.timeout := by
    rw [next_frame_eq mv mkMap g hrun] at h
    cases h3 : Game.update_digdug mv mkMap
        (if g.step + 1 = g.timeout then Game.stop { g with step := g.step + 1 }
         else { g with step := g.step + 1 }) with
    | none => rw [h3] at h; cases h
    | some g3 =>
      rw [h3] at h
      dsimp only [Option.map] at h
      injection h with h
      subst h
      dsimp only at hs
      injection hs with hs
      subst hs
      show (Game.afterUpdate mv g3).timeout = g.timeout
      rw [afterUpdate_timeout]
      obtain ⟨-, htimeout, -, -, -, -, -⟩ := update_digdug_fields _ _ _ _ h3
      rw [htimeout]
      split <;> rfl
  refine ⟨rfl, rfl, hst, fun hne => ?_⟩
  rw [hst]
  exact fun hc => hne hc.symm

/-- Witness for C9: a game constructed with timeout 100 and 5 lives; info
still reports 3000/3 while the tick snapshot reports 100. -/
theorem info_reports_module_defaults_witness :
    (Game.info gW9).timeout = TIMEOUT ∧ (Game.info gW9).lives = LIVES ∧
    (((Game.next_frame idMoves mkMap0 gW9).getD (gW9, none)).2.getD
        (Game.mkState gW9)).timeout = gW9.timeout ∧
    (Game.info gW9).timeout
      ≠ (((Game.next_frame idMoves mkMap0 gW9).getD (gW9, none)).2.getD
          (Game.mkState gW9)).timeout := by
  have h := info_reports_module_defaults idMoves mkMap0 gW9
    ((Game.next_frame idMoves mkMap0 gW9).getD (gW9, none))
    (((Game.next_frame idMoves mkMap0 gW9).getD (gW9, none)).2.getD
      (Game.mkState gW9)) rfl rfl rfl
  exact ⟨h.1, h.2.1, h.2.2.1, h.2.2.2 (by decide)⟩

/-- C2 counterexample: after one completed tick of `gRC` the enemy collection
still contains the enemy that the collision resolver's rock-crush branch
killed during that same tick, so the collection is not all-alive. -/
theorem enemies_after_tick_counterexample :
    (Game.next_frame idMoves mkMap0 gRC).map
      (fun r => r.1.enemies.all fun e => e.alive && !e.exit) = some false := by
  decide

/-- C2 (amended): after every completed running tick, every enemy in the
collection is not exited, and any dead enemy in it was killed by the
rock-crush branch of that same tick's collision resolution (such enemies
remain until the next tick's filter). -/
theorem enemies_after_tick_amended (mv : Moves) (mkMap : Nat → Nat × Nat → Map)
    (g : Game) (r : Game × Option Snapshot) (hrun : g.running = true)
    (h : Game.next_frame mv mkMap g = some r) :
    ∀ e ∈ r.1.enemies,
      e.exit = false ∧ (e.alive = false → e.killedByRock = true) := by
  rw [next_frame_eq mv mkMap g hrun] at h
  cases h3 : Game.update_digdug mv mkMap
      (if g.step + 1 = g.timeout then Game.stop { g with step := g.step + 1 }
       else { g with step := g.step + 1 }) with
  | none => rw [h3] at h; cases h
  | some g3 =>
    rw [h3] at h
    dsimp only [Option.map] at h
    injection h with h
    subst h
    exact allOk_afterUpdate mv g3

/-- Witness for C2 (amended): the dead enemy left in the collection after one
tick of `gRC` is not exited and is marked rock-killed. -/
theorem enemies_after_tick_amended_witness :
    ({ eRC with alive := false, killedByRock := true } : Enemy).exit = false ∧
    (({ eRC with alive := false, killedByRock := true } : Enemy).alive = false →
      ({ eRC with alive := false, killedByRock := true } : Enemy).killedByRock
        = true) :=
  enemies_after_tick_amended idMoves mkMap0 gRC
    ((Game.next_frame idMoves mkMap0 gRC).getD (gRC, none)) rfl rfl
    { eRC with alive := false, killedByRock := true } (by decide)

/-- C5 counterexample: with the player on their last life and two enemies on
the player's cell, the second collision in iteration order is applied too:
lives end at -1 (a single applied collision would leave 0) and the step count
is folded into the lifetime total twice. -/
theorem collision_first_wins_counterexample :
    (Game.collision gTwo).digdug.lives = -1 ∧
    (Game.collision gTwo).total_steps = 2 * gTwo.step := by
  decide

/-- C5 (amended): collisions are checked sequentially in iteration order
against the entity's current position, and a later collision is applied
whenever its position test still holds after the earlier resolutions; in
particular, when an earlier collision kills the player on their final life,
the player is not moved, so a second enemy on the same cell triggers the
death policy again: lives reach -1, the step count is folded into the
lifetime total twice, and both enemies are respawned. -/
theorem collision_sequential_order_amended
    (il tmo sc st ts : Nat) (ilv : Int) (m : Map) (dpos dspawn : Pos)
    (dir : Direction) (e1 e2 : Enemy) (rp : Rope) (k : Key) (pn : String)
    (h1 : e1.pos = dpos) (h2 : e2.pos = dpos) :
    Game.collision
        { initial_level := il, running := true, timeout := tmo, score := sc,
          step := st, total_steps := ts, initial_lives := ilv, map := m,
          digdug := { pos := dpos, spawn := dspawn, lives := 1,
                      direction := dir },
          enemies := [e1, e2], rocks := [], rope := rp, lastkeypress := k,
          player_name := pn }
      = { initial_level := il, running := false, timeout := tmo, score := sc,
          step := st, total_steps := ts + st + st, initial_lives := ilv,
          map := m,
          digdug := { pos := dpos, spawn := dspawn, lives := -1,
                      direction := dir },
          enemies := [e1.respawn, e2.respawn], rocks := [], rope := rp,
          lastkeypress := k, player_name := pn } := by
  norm_num [Game.collision, Game.collisionEnemiesAux, Game.collisionRocksAux,
    Game.kill_digdug, Game.stop, DigDug.kill, h1, h2]

/-- Witness for C5 (amended): the concrete game `gTwo`. -/
theorem collision_sequential_order_amended_witness :
    Game.collision gTwo
      = { gTwo with
          running := false,
          total_steps := 14,
          digdug := { pos := (3, 3), spawn := (1, 1), lives := -1,
                      direction := Direction.east },
          enemies := [eTwo1.respawn, eTwo2.respawn] } :=
  collision_sequential_order_amended 1 3000 0 7 0 3 cmap (3, 3) (1, 1)
    Direction.east eTwo1 eTwo2 Rope.init Key.kNone "p" (by decide) (by decide)

/-- C1: the code double-credits a rock-crush death.  In `gRC` exactly one
enemy exists and dies exactly once (crushed by the rock in tick 1's collision
resolution, worth ROCK_KILL_POINTS), yet after two ticks the score is
2 * ROCK_KILL_POINTS: the crush is credited once in the collision resolver
and again by the next tick's pre-filter crediting pass, because the filter
runs before the collision resolver. -/
theorem rock_crush_double_credit :
    gRC.score = 0 ∧ gRC.enemies.length = 1 ∧
    ((Game.next_frame idMoves mkMap0 gRC).map fun r => r.1.score)
      = some ROCK_KILL_POINTS ∧
    ((Game.next_frame idMoves mkMap0 gRC).bind fun r =>
      (Game.next_frame idMoves mkMap0 r.1).map fun r2 => r2.1.score)
      = some (2 * ROCK_KILL_POINTS) := by
  decide

/-- C3: the level-advance guard in input resolution is dead code (its
condition, an emptiness test written as length < 0, is unsatisfiable), so
input resolution never touches the map or the step counters and next_level is
never invoked from it; and the win check in next_level is commented out in
the source, so next_level at the out-of-table level 4 fails its LEVEL_ENEMIES
lookup (Python KeyError) instead of stopping the match as won. -/
theorem level_advance_guard_dead :
    (∀ g : Game, ¬ g.enemies.length < 0) ∧
    (∀ (mv : Moves) (mkMap : Nat → Nat × Nat → Map) (g g' : Game),
      Game.update_digdug mv mkMap g = some g' →
      g'.map = g.map ∧ g'.step = g.step ∧ g'.total_steps = g.total_steps) ∧
    (∀ (mkMap : Nat → Nat × Nat → Map) (g : Game),
      Game.next_level mkMap g 4 = none) := by
  refine ⟨fun g => Nat.not_lt_zero _, ?_, ?_⟩
  · intro mv mkMap g g' h
    obtain ⟨hs, -, hts, -, hm, -, -⟩ := update_digdug_fields mv mkMap g g' h
    exact ⟨hm, hs, hts⟩
  · intro mkMap g
    unfold Game.next_level
    rfl

/-- Witness for C3: a game with an empty enemy collection; one input
resolution leaves map and counters unchanged, and the level-4 lookup
fails. -/
theorem level_advance_guard_dead_witness :
    ¬ gEmpty.enemies.length < 0 ∧
    (((Game.update_digdug idMoves mkMap0 gEmpty).getD gEmpty).map
        = gEmpty.map ∧
     ((Game.update_digdug idMoves mkMap0 gEmpty).getD gEmpty).step
        = gEmpty.step ∧
     ((Game.update_digdug idMoves mkMap0 gEmpty).getD gEmpty).total_steps
        = gEmpty.total_steps) ∧
    Game.next_level mkMap0 gEmpty 4 = none :=
  ⟨level_advance_guard_dead.1 gEmpty,
   level_advance_guard_dead.2.1 idMoves mkMap0 gEmpty _ rfl,
   level_advance_guard_dead.2.2 mkMap0 gEmpty⟩

end DigdugGame
